import Mathlib

/-!
Verification of the mcp-accessibility-models library.

The source is a small Python library (helpers.py, models.py) of pure
functions over JSON-shaped dynamic values.  We shallowly embed the
dynamic values as the inductive type PyVal below, together with the
pieces of Python semantics the functions rely on: dictionary lookup
with a default, truthiness, iteration (which raises TypeError on a
non-iterable), attribute access of .get (which raises AttributeError
on a non-dict), stringification, uppercasing and lowercasing.

Conventions of the embedding:
  - Dictionaries are association lists with string keys (all inputs in
    scope are parsed JSON, whose keys are strings); lookup takes the
    first binding.
  - str.upper and str.lower are modelled as ASCII case mapping,
    character by character, which is exact on all data in scope.
  - repr of a string is modelled as wrapping in single quotes without
    escaping, exact for strings with no quote or backslash characters.
  - Functions that can raise return Except; the exception tag records
    which Python exception class the source would raise.
-/

/-- A Python value of the shapes used by the library: None, bool, int,
str, list, dict with string keys. -/
inductive PyVal where
  | none : PyVal
  | bool : Bool → PyVal
  | int : Int → PyVal
  | str : String → PyVal
  | list : List PyVal → PyVal
  | dict : List (String × PyVal) → PyVal

/-- Python exceptions that the embedded code can raise. -/
inductive PyExn where
  | typeError : PyExn
  | attributeError : PyExn
deriving DecidableEq

/-- First-binding lookup in a string-keyed dictionary; models d[k]
presence via Option. -/
def dictGet : List (String × PyVal) → String → Option PyVal
  | [], _ => Option.none
  | (k, v) :: kvs, key => if k = key then some v else dictGet kvs key

/-- Models the Python d.get(key, default). -/
def pyGet (kvs : List (String × PyVal)) (key : String) (default : PyVal) : PyVal :=
  (dictGet kvs key).getD default

/-- Python truthiness of a value. -/
def truthy : PyVal → Bool
  | .none => false
  | .bool b => b
  | .int n => n != 0
  | .str s => !s.isEmpty
  | .list xs => !xs.isEmpty
  | .dict kvs => !kvs.isEmpty

/-- Python iteration: lists yield their elements, strings their
one-character substrings, dicts their keys; other values raise
TypeError. -/
def pyIter : PyVal → Except PyExn (List PyVal)
  | .list xs => .ok xs
  | .str s => .ok (s.data.map fun c => .str (String.singleton c))
  | .dict kvs => .ok (kvs.map fun kv => .str kv.1)
  | _ => .error .typeError

/-- Models str.upper, as ASCII case mapping. -/
def pyUpper (s : String) : String :=
  String.mk (s.data.map Char.toUpper)

/-- Models str.lower, as ASCII case mapping. -/
def pyLower (s : String) : String :=
  String.mk (s.data.map Char.toLower)

/-- Models the Python join of a list of strings with a separator. -/
def joinSep (sep : String) : List String → String
  | [] => ""
  | [s] => s
  | s :: rest => s ++ sep ++ joinSep sep rest

/-- Bool-valued: the first list is a prefix of the second. -/
def charListIsPrefixOf : List Char → List Char → Bool
  | [], _ => true
  | _ :: _, [] => false
  | a :: as, b :: bs => a == b && charListIsPrefixOf as bs

/-- Bool-valued: the first list occurs as a contiguous sublist of the
second. -/
def charListContainsSub : List Char → List Char → Bool
  | needle, [] => needle.isEmpty
  | needle, c :: rest =>
    charListIsPrefixOf needle (c :: rest) || charListContainsSub needle rest

/-- Models the Python substring test: needle in hay. -/
def strContains (hay needle : String) : Bool :=
  charListContainsSub needle.data hay.data

/-- Bool-valued lexicographic comparison of char lists by code point,
as Python compares strings. -/
def charListLtB : List Char → List Char → Bool
  | [], [] => false
  | [], _ :: _ => true
  | _ :: _, [] => false
  | a :: as, b :: bs =>
    if a < b then true else if b < a then false else charListLtB as bs

/-- Models Python string comparison a < b. -/
def strLtB (a b : String) : Bool :=
  charListLtB a.data b.data

/-- Insert a string into a sorted list, keeping it sorted. -/
def insertSorted (x : String) : List String → List String
  | [] => [x]
  | y :: ys => if strLtB x y then x :: y :: ys else y :: insertSorted x ys

/-- Models the Python sorted builtin on a list of strings. -/
def sortStrings : List String → List String
  | [] => []
  | x :: xs => insertSorted x (sortStrings xs)

mutual

/-- Models the Python repr of a value (string repr modelled without
escaping, exact for the data in scope). -/
def pyRepr : PyVal → String
  | .none => "None"
  | .bool true => "True"
  | .bool false => "False"
  | .int n => toString n
  | .str s => "\x27" ++ s ++ "\x27"
  | .list xs => "[" ++ joinSep ", " (pyReprList xs) ++ "]"
  | .dict kvs => "\x7b" ++ joinSep ", " (pyReprDict kvs) ++ "\x7d"

/-- The reprs of the elements of a list value. -/
def pyReprList : List PyVal → List String
  | [] => []
  | x :: xs => pyRepr x :: pyReprList xs

/-- The key-colon-value reprs of the entries of a dict value. -/
def pyReprDict : List (String × PyVal) → List String
  | [] => []
  | kv :: kvs => ("\x27" ++ kv.1 ++ "\x27: " ++ pyRepr kv.2) :: pyReprDict kvs

end

/-- Models the Python str builtin: identity on strings, repr-like
rendering otherwise. -/
def pyStr : PyVal → String
  | .str s => s
  | v => pyRepr v

/-- The printed name of the type of a value, as in the Python
type(v) rendering. -/
def pyTypeName : PyVal → String
  | .none => "NoneType"
  | .bool _ => "bool"
  | .int _ => "int"
  | .str _ => "str"
  | .list _ => "list"
  | .dict _ => "dict"

/-- Models the f-string rendering of type(v). -/
def pyTypeStr (v : PyVal) : String :=
  "<class \x27" ++ pyTypeName v ++ "\x27>"

/-- Python equality of an int against a value: ints compare by value
and bools compare as 0 and 1; all other comparisons are unequal. -/
def pyEqInt (n : Int) : PyVal → Bool
  | .int m => n == m
  | .bool b => n == (if b then (1 : Int) else 0)
  | _ => false

/-!
Embedding of src/mcp_accessibility_models/helpers.py.
-/

/-- The reference table SSR_CODE_DESCRIPTIONS of helpers.py. -/
def SSR_CODE_DESCRIPTIONS : List (String × String) :=
  [("WCHR", "Wheelchair assistance (passenger provides own wheelchair)"),
   ("WCHS", "Wheelchair with stowage (wheelchair stowed in cargo hold)"),
   ("STCR", "Stretcher case (medical requirement for stretcher accommodation)"),
   ("DEAF", "Deaf passenger (visual alerts, no audio announcements)"),
   ("BLND", "Blind passenger (audio assistance, guide dog accommodation)"),
   ("PRMK", "Passenger with mobility disability (priority seating, extra assistance)")]

/-- VALID_SSR_CODES of helpers.py: the keys of the description table. -/
def VALID_SSR_CODES : List String :=
  SSR_CODE_DESCRIPTIONS.map Prod.fst

/-- First-binding lookup in the description table. -/
def lookupDescription (code : String) : Option String :=
  match SSR_CODE_DESCRIPTIONS.find? fun kv => kv.1 == code with
  | some kv => some kv.2
  | Option.none => Option.none

/-- The error kinds of the spec: InvalidInput for a wrongly shaped
input, UnknownCode for a well-formed but non-member code.  The source
raises ValueError in both cases with distinct messages; the kind tag
records which raise site fired. -/
inductive SsrErrKind where
  | invalidInput : SsrErrKind
  | unknownCode : SsrErrKind
deriving DecidableEq

/-- A validation failure: its kind and the ValueError message. -/
structure SsrError where
  kind : SsrErrKind
  msg : String

/-- The UnknownCode message of helpers.py, naming the offending code
and joining the sorted valid codes. -/
def invalidCodeMsg (code : String) : String :=
  "Invalid SSR code \x27" ++ code ++ "\x27. Valid codes: " ++
    joinSep ", " (sortStrings VALID_SSR_CODES)

/-- The element loop of validate_ssr_codes: uppercase each element,
check membership, fail at the first offender. -/
def validateLoop : List PyVal → Except SsrError (List PyVal)
  | [] => .ok []
  | code :: rest =>
    match code with
    | .str s =>
      if VALID_SSR_CODES.contains (pyUpper s) then
        match validateLoop rest with
        | .ok tail => .ok (.str (pyUpper s) :: tail)
        | .error e => .error e
      else .error ⟨.unknownCode, invalidCodeMsg s⟩
    | v => .error ⟨.invalidInput, "SSR code must be string, got " ++ pyTypeStr v⟩

/-- validate_ssr_codes of helpers.py: None passes through, a non-list
input fails as InvalidInput, and a list is validated element by
element. -/
def validate_ssr_codes (codes : PyVal) : Except SsrError PyVal :=
  match codes with
  | .none => .ok .none
  | .list l =>
    match validateLoop l with
    | .ok validated => .ok (.list validated)
    | .error e => .error e
  | v => .error ⟨.invalidInput, "SSR codes must be a list, got " ++ pyTypeStr v⟩

/-- get_ssr_code_description of helpers.py: uppercase, check
membership, then read the table. -/
def get_ssr_code_description (code : String) : Except SsrError String :=
  let code_upper := pyUpper code
  if VALID_SSR_CODES.contains code_upper then
    .ok ((lookupDescription code_upper).getD "")
  else
    .error ⟨.unknownCode, invalidCodeMsg code⟩

/-- get_all_ssr_codes of helpers.py: a copy of the table. -/
def get_all_ssr_codes : List (String × String) :=
  SSR_CODE_DESCRIPTIONS

/-- extract_hotel_accessibility of helpers.py.  Iterating a
non-iterable amenities value raises TypeError, hence the Except. -/
def extract_hotel_accessibility (hotel_property : List (String × PyVal)) :
    Except PyExn (List (String × PyVal)) :=
  let amenities := pyGet hotel_property "amenities" (.list [])
  match pyIter amenities with
  | .error e => .error e
  | .ok items =>
    let amenity_ids := items.filterMap fun a =>
      match a with
      | .dict m => dictGet m "id"
      | _ => Option.none
    let wheelchair_accessible := amenity_ids.any (pyEqInt 53)
    .ok [("wheelchair_accessible", .bool wheelchair_accessible),
         ("accessible_room_available", .bool wheelchair_accessible),
         ("wheelchair_amenity_id", .int 53),
         ("amenities", amenities)]

/-- The keyword table of extract_amadeus_hotel_accessibility. -/
def accessibility_keywords : List String :=
  ["wheelchair", "accessible", "mobility", "elevator", "ramp", "parking",
   "bathroom"]

/-- The loop body building facility_list in
extract_amadeus_hotel_accessibility: a dict entry contributes its
description value (falling back to its stringification), any other
entry is stringified. -/
def amadeusFacilityEntry : PyVal → PyVal
  | .dict m => pyGet m "description" (.str (pyStr (.dict m)))
  | v => .str (pyStr v)

/-- extract_amadeus_hotel_accessibility of helpers.py.  Iterating a
truthy non-iterable facilities value raises TypeError, hence the
Except. -/
def extract_amadeus_hotel_accessibility (hotel_data : List (String × PyVal)) :
    Except PyExn (List (String × PyVal)) :=
  let facilities := pyGet hotel_data "facilities" (.list [])
  let _descriptions := pyGet hotel_data "descriptions" (.dict [])
  let builtList : Except PyExn (List PyVal) :=
    if truthy facilities then
      match pyIter facilities with
      | .error e => .error e
      | .ok items => .ok (items.map amadeusFacilityEntry)
    else .ok []
  match builtList with
  | .error e => .error e
  | .ok facility_list =>
    let has_accessibility := facility_list.any fun facility =>
      accessibility_keywords.any fun keyword =>
        strContains (pyLower (pyStr facility)) (pyLower keyword)
    .ok [("wheelchair_accessible", .bool has_accessibility),
         ("accessible_room_available", .bool has_accessibility),
         ("facility_list", .list facility_list)]

/-- The inner loop of extract_flight_accessibility_from_amadeus over
fareDetailsBySegment entries: each entry must support .get, which
raises AttributeError on a non-dict; the read value is unused. -/
def fareDetailsLoop : List PyVal → Except PyExn Unit
  | [] => .ok ()
  | detail :: rest =>
    match detail with
    | .dict m =>
      let _included_checks := pyGet m "includedCheckedBags" (.dict [])
      fareDetailsLoop rest
    | _ => .error .attributeError

/-- The outer loop of extract_flight_accessibility_from_amadeus over
travelerPricings entries: each must support .get; its
fareDetailsBySegment value is iterated. -/
def travelerPricingLoop : List PyVal → Except PyExn Unit
  | [] => .ok ()
  | pricing :: rest =>
    match pricing with
    | .dict m =>
      let fare_details := pyGet m "fareDetailsBySegment" (.list [])
      match pyIter fare_details with
      | .error e => .error e
      | .ok details =>
        match fareDetailsLoop details with
        | .error e => .error e
        | .ok _ => travelerPricingLoop rest
    | _ => .error .attributeError

/-- extract_flight_accessibility_from_amadeus of helpers.py: traverse
travelerPricings (collecting nothing), then return the fixed
record. -/
def extract_flight_accessibility_from_amadeus
    (flight_offer : List (String × PyVal)) :
    Except PyExn (List (String × PyVal)) :=
  let ssr_codes : List PyVal := []
  let traveler_pricings := pyGet flight_offer "travelerPricings" (.list [])
  match pyIter traveler_pricings with
  | .error e => .error e
  | .ok pricings =>
    match travelerPricingLoop pricings with
    | .error e => .error e
    | .ok _ =>
      .ok [("wheelchair_available", .bool false),
           ("wheelchair_stowage", .bool false),
           ("accessible_lavatory", .bool false),
           ("extra_legroom_available", .bool false),
           ("special_service_codes",
             if ssr_codes.isEmpty then PyVal.none else .list ssr_codes),
           ("companion_required", PyVal.none),
           ("special_meals_available", .bool false),
           ("notes", .str "Check with airline for specific accessibility accommodations")]

/-!
Embedding of src/mcp_accessibility_models/models.py.  Each pydantic
model becomes a structure whose fields carry the declared default
values; optional fields become Option types.
-/

/-- FlightAccessibility of models.py. -/
structure FlightAccessibility where
  wheelchair_available : Bool := false
  wheelchair_stowage : Bool := false
  accessible_lavatory : Bool := false
  extra_legroom_available : Bool := false
  special_service_codes : Option (List String) := Option.none
  companion_required : Option Bool := Option.none
  special_meals_available : Bool := false
  notes : Option String := Option.none

/-- HotelAccessibility of models.py. -/
structure HotelAccessibility where
  wheelchair_accessible : Bool := false
  accessible_room_available : Bool := false
  wheelchair_amenity_id : Int := 53
  accessible_bathroom_types : Option (List String) := Option.none
  accessible_parking : Bool := false
  accessible_entrance : Bool := false
  accessible_elevator : Bool := false
  service_animals_allowed : Bool := false
  lowest_accessible_price : Option Float := Option.none
  facility_list : Option (List String) := Option.none

/-- AccessibilityRequest of models.py. -/
structure AccessibilityRequest where
  wheelchair_user : Bool := false
  reduced_mobility : Bool := false
  deaf : Bool := false
  blind : Bool := false
  stretcher_case : Bool := false
  companion_required : Bool := false
  special_requirements : Option String := Option.none

/-- The field-name-to-default table of FlightAccessibility, read off
the field declarations of models.py, with defaults rendered as Python
values. -/
def flightAccessibilityFieldDefaults : List (String × PyVal) :=
  [("wheelchair_available", .bool false),
   ("wheelchair_stowage", .bool false),
   ("accessible_lavatory", .bool false),
   ("extra_legroom_available", .bool false),
   ("special_service_codes", .none),
   ("companion_required", .none),
   ("special_meals_available", .bool false),
   ("notes", .none)]

/-- The field-name-to-default table of HotelAccessibility. -/
def hotelAccessibilityFieldDefaults : List (String × PyVal) :=
  [("wheelchair_accessible", .bool false),
   ("accessible_room_available", .bool false),
   ("wheelchair_amenity_id", .int 53),
   ("accessible_bathroom_types", .none),
   ("accessible_parking", .bool false),
   ("accessible_entrance", .bool false),
   ("accessible_elevator", .bool false),
   ("service_animals_allowed", .bool false),
   ("lowest_accessible_price", .none),
   ("facility_list", .none)]

/-- The field-name-to-default table of AccessibilityRequest. -/
def accessibilityRequestFieldDefaults : List (String × PyVal) :=
  [("wheelchair_user", .bool false),
   ("reduced_mobility", .bool false),
   ("deaf", .bool false),
   ("blind", .bool false),
   ("stretcher_case", .bool false),
   ("companion_required", .bool false),
   ("special_requirements", .none)]

/-- A Python value that is the boolean False or None. -/
def isFalseOrNone : PyVal → Bool
  | .bool false => true
  | .none => true
  | _ => false

/-- Success test for an Except result. -/
def exSucceeds {ε α : Type} : Except ε α → Bool
  | .ok _ => true
  | .error _ => false

/-- An element the validate loop accepts: a string whose uppercasing
is a valid SSR code. -/
def goodSsrElem (y : PyVal) : Prop :=
  ∃ t : String, y = PyVal.str t ∧ pyUpper t ∈ VALID_SSR_CODES

theorem validateLoop_all_valid (l : List String)
    (h : ∀ s ∈ l, pyUpper s ∈ VALID_SSR_CODES) :
    validateLoop (l.map PyVal.str) = .ok (l.map fun s => PyVal.str (pyUpper s)) := by
  induction l with
  | nil => rfl
  | cons a as ih =>
    have hm := h a (List.mem_cons_self a as)
    have ih2 := ih fun s hs => h s (List.mem_cons_of_mem a hs)
    simp [validateLoop, hm, ih2]

theorem validateLoop_error_of_good_front (pre rest : List PyVal)
    (hpre : ∀ y ∈ pre, goodSsrElem y) (e : SsrError)
    (h : validateLoop rest = .error e) :
    validateLoop (pre ++ rest) = .error e := by
  induction pre with
  | nil => simpa using h
  | cons a pre ih =>
    obtain ⟨t, rfl, ht⟩ := hpre _ (List.mem_cons_self a pre)
    have ih2 := ih fun y hy => hpre y (List.mem_cons_of_mem _ hy)
    simp [validateLoop, ht, ih2]

theorem validateLoop_nonstr_head (x : PyVal) (post : List PyVal)
    (hx : ∀ s, x ≠ PyVal.str s) :
    ∃ m, validateLoop (x :: post) = .error ⟨.invalidInput, m⟩ := by
  cases x with
  | str s => exact absurd rfl (hx s)
  | none => exact ⟨_, rfl⟩
  | bool b => exact ⟨_, rfl⟩
  | int n => exact ⟨_, rfl⟩
  | list l => exact ⟨_, rfl⟩
  | dict d => exact ⟨_, rfl⟩

theorem validateLoop_unknown_head (s : String) (post : List PyVal)
    (hs : pyUpper s ∉ VALID_SSR_CODES) :
    validateLoop (PyVal.str s :: post) = .error ⟨.unknownCode, invalidCodeMsg s⟩ := by
  simp [validateLoop, hs]

theorem validateLoop_succeeds_iff (l : List PyVal) :
    exSucceeds (validateLoop l) = true ↔ ∀ y ∈ l, goodSsrElem y := by
  induction l with
  | nil => simp [validateLoop, exSucceeds]
  | cons a as ih =>
    cases a with
    | str s =>
      by_cases hmem : pyUpper s ∈ VALID_SSR_CODES
      · cases hv : validateLoop as with
        | ok tail =>
          have has : ∀ y ∈ as, goodSsrElem y := ih.mp (by simp [hv, exSucceeds])
          simp [validateLoop, exSucceeds, hv, hmem, goodSsrElem]
          intro a ha
          exact has a ha
        | error e =>
          have hnot : ¬ ∀ y ∈ as, goodSsrElem y := by
            intro hh
            have h2 := ih.mpr hh
            rw [hv] at h2
            exact absurd h2 (by simp [exSucceeds])
          simp [validateLoop, exSucceeds, hv, hmem, hnot]
      · simp [validateLoop, exSucceeds, hmem, goodSsrElem]
    | none => simp [validateLoop, exSucceeds, goodSsrElem]
    | bool b => simp [validateLoop, exSucceeds, goodSsrElem]
    | int n => simp [validateLoop, exSucceeds, goodSsrElem]
    | list xs => simp [validateLoop, exSucceeds, goodSsrElem]
    | dict kvs => simp [validateLoop, exSucceeds, goodSsrElem]

/-- Claim C1: on a list whose elements are strings that uppercase into
the valid SSR code set, validate_ssr_codes succeeds with the codes
uppercased, in order, with the same length; in particular the empty
list validates to the empty list. -/
theorem claim_validate_valid_lists (l : List String)
    (h : ∀ s ∈ l, pyUpper s ∈ VALID_SSR_CODES) :
    validate_ssr_codes (PyVal.list (l.map PyVal.str)) =
      .ok (PyVal.list (l.map fun s => PyVal.str (pyUpper s))) := by
  have hl := validateLoop_all_valid l h
  simp [validate_ssr_codes, hl]

/-- Witness for C1: the empty list and the spec scenario
validate(wchr, STCR). -/
theorem claim_validate_valid_lists_witness :
    validate_ssr_codes (PyVal.list []) = .ok (PyVal.list [])
    ∧ validate_ssr_codes (PyVal.list [PyVal.str "wchr", PyVal.str "STCR"]) =
        .ok (PyVal.list [PyVal.str "WCHR", PyVal.str "STCR"]) := by
  constructor
  · exact claim_validate_valid_lists [] (by simp)
  · exact claim_validate_valid_lists ["wchr", "STCR"] (by decide)

/-- Claim C2: validate_ssr_codes maps None to None; fails as
InvalidInput on a present non-list input and on the first non-string
element; fails as UnknownCode on the first string element whose
uppercasing is not a valid code, with a message naming that code and
listing the six valid codes sorted alphabetically; and succeeds in
exactly the remaining cases. -/
theorem claim_validate_error_spec :
    validate_ssr_codes PyVal.none = .ok PyVal.none
    ∧ (∀ v : PyVal, v ≠ PyVal.none → (∀ l, v ≠ PyVal.list l) →
        ∃ m, validate_ssr_codes v = .error ⟨.invalidInput, m⟩)
    ∧ (∀ pre x post, (∀ y ∈ pre, goodSsrElem y) → (∀ s, x ≠ PyVal.str s) →
        ∃ m, validate_ssr_codes (PyVal.list (pre ++ x :: post)) =
          .error ⟨.invalidInput, m⟩)
    ∧ (∀ pre (s : String) post, (∀ y ∈ pre, goodSsrElem y) →
        pyUpper s ∉ VALID_SSR_CODES →
        validate_ssr_codes (PyVal.list (pre ++ PyVal.str s :: post)) =
          .error ⟨.unknownCode, invalidCodeMsg s⟩)
    ∧ (∀ s : String, invalidCodeMsg s =
        "Invalid SSR code \x27" ++ s ++ "\x27. Valid codes: " ++
          "BLND, DEAF, PRMK, STCR, WCHR, WCHS")
    ∧ (∀ l, exSucceeds (validate_ssr_codes (PyVal.list l)) = true ↔
        ∀ y ∈ l, goodSsrElem y) := by
  refine ⟨rfl, ?_, ?_, ?_, fun s => rfl, ?_⟩
  · intro v h1 h2
    cases v with
    | none => exact absurd rfl h1
    | list l => exact absurd rfl (h2 l)
    | bool b => exact ⟨_, rfl⟩
    | int n => exact ⟨_, rfl⟩
    | str s => exact ⟨_, rfl⟩
    | dict d => exact ⟨_, rfl⟩
  · intro pre x post hpre hx
    obtain ⟨m, hm⟩ := validateLoop_nonstr_head x post hx
    have h2 := validateLoop_error_of_good_front pre _ hpre _ hm
    exact ⟨m, by simp [validate_ssr_codes, h2]⟩
  · intro pre s post hpre hs
    have h1 := validateLoop_unknown_head s post hs
    have h2 := validateLoop_error_of_good_front pre _ hpre _ h1
    simp [validate_ssr_codes, h2]
  · intro l
    cases hv : validateLoop l with
    | ok v =>
      have hiff := validateLoop_succeeds_iff l
      rw [hv] at hiff
      simp [exSucceeds] at hiff
      simp [validate_ssr_codes, hv, exSucceeds]
      exact hiff
    | error e =>
      have hiff := validateLoop_succeeds_iff l
      rw [hv] at hiff
      simp [exSucceeds] at hiff
      simp [validate_ssr_codes, hv, exSucceeds, hiff]

/-- Witness for C2: the None pass-through, a non-list input, a
non-string element, and the spec scenario validate(XYZ). -/
theorem claim_validate_error_spec_witness :
    (∃ m, validate_ssr_codes (PyVal.str "WCHR") = .error ⟨.invalidInput, m⟩)
    ∧ (∃ m, validate_ssr_codes (PyVal.list [PyVal.int 123]) =
        .error ⟨.invalidInput, m⟩)
    ∧ validate_ssr_codes (PyVal.list [PyVal.str "XYZ"]) =
        .error ⟨.unknownCode, invalidCodeMsg "XYZ"⟩ := by
  refine ⟨?_, ?_, ?_⟩
  · exact claim_validate_error_spec.2.1 (PyVal.str "WCHR") (by simp) (by simp)
  · have h := claim_validate_error_spec.2.2.1 [] (PyVal.int 123) [] (by simp)
      (by intro s h; cases h)
    simpa using h
  · have h := claim_validate_error_spec.2.2.2.1 [] "XYZ" [] (by simp) (by decide)
    simpa using h

theorem lookupDescription_of_mem (c : String) (hc : c ∈ VALID_SSR_CODES) :
    ∃ d, lookupDescription c = some d := by
  simp [VALID_SSR_CODES, SSR_CODE_DESCRIPTIONS] at hc
  rcases hc with rfl | rfl | rfl | rfl | rfl | rfl <;> exact ⟨_, rfl⟩

/-- Claim C7: get_ssr_code_description succeeds exactly when the
uppercased code is a valid SSR code, returning the table entry of the
uppercased code, so lookup is case-insensitive; otherwise it fails as
UnknownCode with the message naming the offending code and listing the
six valid codes sorted. -/
theorem claim_describe_spec (code : String) :
    (exSucceeds (get_ssr_code_description code) = true ↔
      pyUpper code ∈ VALID_SSR_CODES)
    ∧ (∀ d, get_ssr_code_description code = .ok d →
        lookupDescription (pyUpper code) = some d)
    ∧ (∀ code2 : String, pyUpper code = pyUpper code2 →
        pyUpper code ∈ VALID_SSR_CODES →
        get_ssr_code_description code = get_ssr_code_description code2)
    ∧ (pyUpper code ∉ VALID_SSR_CODES →
        get_ssr_code_description code = .error ⟨.unknownCode, invalidCodeMsg code⟩) := by
  refine ⟨?_, ?_, ?_, ?_⟩
  · by_cases hmem : pyUpper code ∈ VALID_SSR_CODES <;>
      simp [get_ssr_code_description, hmem, exSucceeds]
  · intro d hd
    by_cases hmem : pyUpper code ∈ VALID_SSR_CODES
    · obtain ⟨d0, hd0⟩ := lookupDescription_of_mem _ hmem
      simp [get_ssr_code_description, hmem, hd0] at hd
      rw [hd0, hd]
    · simp [get_ssr_code_description, hmem] at hd
  · intro code2 heq hmem
    have hmem2 : pyUpper code2 ∈ VALID_SSR_CODES := heq ▸ hmem
    simp [get_ssr_code_description, hmem, hmem2, heq]
  · intro hmem
    simp [get_ssr_code_description, hmem]

/-- Witness for C7: describe(wchr) succeeds with the WCHR description
and equals describe(WCHR); describe(XYZ) fails as UnknownCode. -/
theorem claim_describe_spec_witness :
    lookupDescription (pyUpper "wchr") =
      some "Wheelchair assistance (passenger provides own wheelchair)"
    ∧ get_ssr_code_description "wchr" = get_ssr_code_description "WCHR"
    ∧ get_ssr_code_description "XYZ" =
        .error ⟨.unknownCode, invalidCodeMsg "XYZ"⟩ := by
  refine ⟨?_, ?_, ?_⟩
  · exact (claim_describe_spec "wchr").2.1
      "Wheelchair assistance (passenger provides own wheelchair)" rfl
  · exact (claim_describe_spec "wchr").2.2.1 "WCHR" rfl (by decide)
  · exact (claim_describe_spec "XYZ").2.2.2 (by decide)

/-- Counterexample for C8: the BLND description starts with a capital
B, so it does not contain the lowercase string blind as a substring. -/
theorem claim_blnd_description_counterexample :
    get_ssr_code_description "BLND" =
      .ok "Blind passenger (audio assistance, guide dog accommodation)"
    ∧ strContains "Blind passenger (audio assistance, guide dog accommodation)"
        "blind" = false :=
  ⟨rfl, rfl⟩

/-- Claim C8 as amended: describe(BLND) succeeds, and its description
contains audio as a substring and blind up to letter case (the
lowercased description contains blind). -/
theorem claim_blnd_description_amended :
    get_ssr_code_description "BLND" =
      .ok "Blind passenger (audio assistance, guide dog accommodation)"
    ∧ strContains "Blind passenger (audio assistance, guide dog accommodation)"
        "audio" = true
    ∧ strContains
        (pyLower "Blind passenger (audio assistance, guide dog accommodation)")
        "blind" = true :=
  ⟨rfl, rfl, rfl⟩

theorem fareDetailsLoop_ok (ds : List PyVal)
    (h : ∀ e ∈ ds, ∃ mm, e = PyVal.dict mm) :
    fareDetailsLoop ds = .ok () := by
  induction ds with
  | nil => rfl
  | cons e rest ih =>
    obtain ⟨mm, rfl⟩ := h e (List.mem_cons_self e rest)
    have ih2 := ih fun x hx => h x (List.mem_cons_of_mem _ hx)
    simp [fareDetailsLoop, ih2]

theorem travelerPricingLoop_ok (ps : List PyVal)
    (h : ∀ p ∈ ps, ∃ m, p = PyVal.dict m ∧
      ∀ w, dictGet m "fareDetailsBySegment" = some w →
        ∃ ds, w = PyVal.list ds ∧ ∀ e ∈ ds, ∃ mm, e = PyVal.dict mm) :
    travelerPricingLoop ps = .ok () := by
  induction ps with
  | nil => rfl
  | cons p rest ih =>
    obtain ⟨m, rfl, hm⟩ := h p (List.mem_cons_self p rest)
    have ih2 := ih fun x hx => h x (List.mem_cons_of_mem _ hx)
    cases hF : dictGet m "fareDetailsBySegment" with
    | none =>
      simp [travelerPricingLoop, pyGet, hF, pyIter, fareDetailsLoop, ih2]
    | some w =>
      obtain ⟨ds, rfl, hds⟩ := hm w hF
      have hloop := fareDetailsLoop_ok ds hds
      simp [travelerPricingLoop, pyGet, hF, pyIter, hloop, ih2]

/-- Claim C3 as amended: the three extractors never raise provided the
container fields have the expected outer shapes: an amenities value,
when present, is a list; a facilities value, when present, is a list;
a travelerPricings value, when present, is a list of dicts whose
fareDetailsBySegment values, when present, are lists of dicts.  Within
those lists, malformed or missing nested fields are tolerated. -/
theorem claim_extractors_total_amended :
    (∀ d : List (String × PyVal),
      (∀ v, dictGet d "amenities" = some v → ∃ xs, v = PyVal.list xs) →
      exSucceeds (extract_hotel_accessibility d) = true)
    ∧ (∀ d : List (String × PyVal),
      (∀ v, dictGet d "facilities" = some v → ∃ xs, v = PyVal.list xs) →
      exSucceeds (extract_amadeus_hotel_accessibility d) = true)
    ∧ (∀ d : List (String × PyVal),
      (∀ v, dictGet d "travelerPricings" = some v → ∃ ps, v = PyVal.list ps ∧
        ∀ p ∈ ps, ∃ m, p = PyVal.dict m ∧
          ∀ w, dictGet m "fareDetailsBySegment" = some w →
            ∃ ds, w = PyVal.list ds ∧ ∀ e ∈ ds, ∃ mm, e = PyVal.dict mm) →
      exSucceeds (extract_flight_accessibility_from_amadeus d) = true) := by
  refine ⟨?_, ?_, ?_⟩
  · intro d h
    cases hA : dictGet d "amenities" with
    | none => simp [extract_hotel_accessibility, pyGet, hA, pyIter, exSucceeds]
    | some v =>
      obtain ⟨xs, rfl⟩ := h v hA
      simp [extract_hotel_accessibility, pyGet, hA, pyIter, exSucceeds]
  · intro d h
    cases hA : dictGet d "facilities" with
    | none =>
      simp [extract_amadeus_hotel_accessibility, pyGet, hA, truthy, exSucceeds]
    | some v =>
      obtain ⟨xs, rfl⟩ := h v hA
      cases xs with
      | nil =>
        simp [extract_amadeus_hotel_accessibility, pyGet, hA, truthy, exSucceeds]
      | cons x rest =>
        simp [extract_amadeus_hotel_accessibility, pyGet, hA, truthy, pyIter,
          exSucceeds]
  · intro d h
    cases hT : dictGet d "travelerPricings" with
    | none =>
      simp [extract_flight_accessibility_from_amadeus, pyGet, hT, pyIter,
        travelerPricingLoop, exSucceeds]
    | some v =>
      obtain ⟨ps, rfl, hps⟩ := h v hT
      have hloop := travelerPricingLoop_ok ps hps
      simp [extract_flight_accessibility_from_amadeus, pyGet, hT, pyIter, hloop,
        exSucceeds]

/-- Witness for C3 as amended: a hotel input with a list of malformed
amenities, an empty amadeus input, and a flight input with one pricing
and one fare detail. -/
theorem claim_extractors_total_amended_witness :
    exSucceeds (extract_hotel_accessibility
      [("amenities", PyVal.list [PyVal.str "x", PyVal.dict []])]) = true
    ∧ exSucceeds (extract_amadeus_hotel_accessibility []) = true
    ∧ exSucceeds (extract_flight_accessibility_from_amadeus
        [("travelerPricings", PyVal.list
          [PyVal.dict [("fareDetailsBySegment",
            PyVal.list [PyVal.dict []])]])]) = true := by
  refine ⟨claim_extractors_total_amended.1 _ ?_,
    claim_extractors_total_amended.2.1 _ ?_,
    claim_extractors_total_amended.2.2 _ ?_⟩
  · intro v hv
    simp [dictGet] at hv
    subst hv
    exact ⟨_, rfl⟩
  · intro v hv
    simp [dictGet] at hv
  · intro v hv
    simp [dictGet] at hv
    subst hv
    refine ⟨_, rfl, ?_⟩
    intro p hp
    simp at hp
    subst hp
    refine ⟨_, rfl, ?_⟩
    intro w hw
    simp [dictGet] at hw
    subst hw
    refine ⟨_, rfl, ?_⟩
    intro e he
    simp at he
    subst he
    exact ⟨_, rfl⟩

/-- Counterexample for C3: a None amenities value is not iterable, so
the hotel extractor raises TypeError instead of treating the field as
absent. -/
theorem claim_extractors_total_counterexample :
    extract_hotel_accessibility [("amenities", PyVal.none)] =
      .error PyExn.typeError :=
  rfl

/-- Claim C4 as amended: on any input whose amenities value, when
present, is a list, the hotel extractor returns the four-field record
in which wheelchair_accessible holds exactly when some dict entry of
the amenities list has an id field equal to 53,
accessible_room_available mirrors it, wheelchair_amenity_id is 53, and
the amenities value is passed through unchanged (the empty list when
the field is absent). -/
theorem claim_hotel_extractor_spec (d : List (String × PyVal)) (xs : List PyVal)
    (h : dictGet d "amenities" = some (PyVal.list xs) ∨
      (dictGet d "amenities" = Option.none ∧ xs = [])) :
    ∃ W : Bool,
      extract_hotel_accessibility d = .ok
        [("wheelchair_accessible", PyVal.bool W),
         ("accessible_room_available", PyVal.bool W),
         ("wheelchair_amenity_id", PyVal.int 53),
         ("amenities", PyVal.list xs)]
      ∧ (W = true ↔ ∃ a ∈ xs, ∃ m, a = PyVal.dict m ∧
          ∃ v, dictGet m "id" = some v ∧ pyEqInt 53 v = true) := by
  have hAm : pyGet d "amenities" (PyVal.list []) = PyVal.list xs := by
    rcases h with h | ⟨h, rfl⟩ <;> simp [pyGet, h]
  refine ⟨(xs.filterMap fun a => match a with
    | PyVal.dict m => dictGet m "id"
    | _ => Option.none).any (pyEqInt 53), ?_, ?_⟩
  · simp [extract_hotel_accessibility, hAm, pyIter]
  · rw [List.any_eq_true]
    constructor
    · rintro ⟨v, hvmem, hp⟩
      rw [List.mem_filterMap] at hvmem
      obtain ⟨a, ha, hfa⟩ := hvmem
      cases a with
      | dict m => exact ⟨PyVal.dict m, ha, m, rfl, v, hfa, hp⟩
      | none => cases hfa
      | bool b => cases hfa
      | int n => cases hfa
      | str s => cases hfa
      | list l => cases hfa
    · rintro ⟨a, ha, m, rfl, v, hv, hp⟩
      exact ⟨v, List.mem_filterMap.mpr ⟨PyVal.dict m, ha, hv⟩, hp⟩

/-- Witness for C4: a single amenity with id 53. -/
theorem claim_hotel_extractor_spec_witness :
    ∃ W : Bool,
      extract_hotel_accessibility [("amenities",
        PyVal.list [PyVal.dict [("id", PyVal.int 53)]])] = .ok
        [("wheelchair_accessible", PyVal.bool W),
         ("accessible_room_available", PyVal.bool W),
         ("wheelchair_amenity_id", PyVal.int 53),
         ("amenities", PyVal.list [PyVal.dict [("id", PyVal.int 53)]])]
      ∧ (W = true ↔ ∃ a ∈ [PyVal.dict [("id", PyVal.int 53)]],
          ∃ m, a = PyVal.dict m ∧
            ∃ v, dictGet m "id" = some v ∧ pyEqInt 53 v = true) :=
  claim_hotel_extractor_spec _ _ (Or.inl rfl)

/-- Counterexample for C4: an amenities value of 0 is not iterable, so
the extractor raises TypeError instead of returning a mapping. -/
theorem claim_hotel_extractor_counterexample :
    extract_hotel_accessibility [("amenities", PyVal.int 0)] =
      .error PyExn.typeError :=
  rfl

/-- Claim C5 as amended: on any input whose facilities value, when
present, is a list, the amadeus hotel extractor returns the
three-field record whose facility list is built entrywise from the
facilities list, wheelchair_accessible holds exactly when some built
entry, viewed as a lowercased string, contains one of the seven
lowercased keywords as a substring, accessible_room_available mirrors
it, and the facility list is empty when the field is absent. -/
theorem claim_amadeus_extractor_spec (d : List (String × PyVal))
    (xs : List PyVal)
    (h : dictGet d "facilities" = some (PyVal.list xs) ∨
      (dictGet d "facilities" = Option.none ∧ xs = [])) :
    ∃ W : Bool,
      extract_amadeus_hotel_accessibility d = .ok
        [("wheelchair_accessible", PyVal.bool W),
         ("accessible_room_available", PyVal.bool W),
         ("facility_list", PyVal.list (xs.map amadeusFacilityEntry))]
      ∧ (W = true ↔ ∃ f ∈ xs.map amadeusFacilityEntry,
          ∃ kw ∈ accessibility_keywords,
            strContains (pyLower (pyStr f)) (pyLower kw) = true)
      ∧ (dictGet d "facilities" = Option.none →
          xs.map amadeusFacilityEntry = []) := by
  have hFac : pyGet d "facilities" (PyVal.list []) = PyVal.list xs := by
    rcases h with h | ⟨h, rfl⟩ <;> simp [pyGet, h]
  refine ⟨(xs.map amadeusFacilityEntry).any fun facility =>
    accessibility_keywords.any fun keyword =>
      strContains (pyLower (pyStr facility)) (pyLower keyword), ?_, ?_, ?_⟩
  · cases xs with
    | nil => simp [extract_amadeus_hotel_accessibility, hFac, truthy, pyIter]
    | cons x rest =>
      simp [extract_amadeus_hotel_accessibility, hFac, truthy, pyIter]
  · rw [List.any_eq_true]
    constructor
    · rintro ⟨f, hf, hkw⟩
      rw [List.any_eq_true] at hkw
      obtain ⟨kw, hkwmem, hc⟩ := hkw
      exact ⟨f, hf, kw, hkwmem, hc⟩
    · rintro ⟨f, hf, kw, hkwmem, hc⟩
      exact ⟨f, hf, List.any_eq_true.mpr ⟨kw, hkwmem, hc⟩⟩
  · intro hnone
    rcases h with h | ⟨h, rfl⟩
    · rw [h] at hnone; cases hnone
    · rfl

/-- Witness for C5: a single Ramp facility string. -/
theorem claim_amadeus_extractor_spec_witness :
    ∃ W : Bool,
      extract_amadeus_hotel_accessibility
        [("facilities", PyVal.list [PyVal.str "Ramp"])] = .ok
        [("wheelchair_accessible", PyVal.bool W),
         ("accessible_room_available", PyVal.bool W),
         ("facility_list", PyVal.list
           ([PyVal.str "Ramp"].map amadeusFacilityEntry))]
      ∧ (W = true ↔ ∃ f ∈ [PyVal.str "Ramp"].map amadeusFacilityEntry,
          ∃ kw ∈ accessibility_keywords,
            strContains (pyLower (pyStr f)) (pyLower kw) = true)
      ∧ (dictGet [("facilities", PyVal.list [PyVal.str "Ramp"])] "facilities" =
          Option.none → [PyVal.str "Ramp"].map amadeusFacilityEntry = []) :=
  claim_amadeus_extractor_spec _ _ (Or.inl rfl)

/-- Counterexample for C5: a facilities value of 7 is truthy and not
iterable, so the extractor raises TypeError instead of returning a
mapping. -/
theorem claim_amadeus_extractor_counterexample :
    extract_amadeus_hotel_accessibility [("facilities", PyVal.int 7)] =
      .error PyExn.typeError :=
  rfl

/-- Claim C6 as amended: whenever the flight extractor returns at all,
it returns the one fixed record: every boolean flag false, null
special_service_codes and companion_required, and the constant
advisory note; the traveler pricing traversal can only decide between
raising and this fixed output. -/
theorem claim_flight_extractor_const (d : List (String × PyVal))
    (r : List (String × PyVal))
    (h : extract_flight_accessibility_from_amadeus d = .ok r) :
    r = [("wheelchair_available", PyVal.bool false),
         ("wheelchair_stowage", PyVal.bool false),
         ("accessible_lavatory", PyVal.bool false),
         ("extra_legroom_available", PyVal.bool false),
         ("special_service_codes", PyVal.none),
         ("companion_required", PyVal.none),
         ("special_meals_available", PyVal.bool false),
         ("notes", PyVal.str "Check with airline for specific accessibility accommodations")] := by
  simp only [extract_flight_accessibility_from_amadeus] at h
  cases hI : pyIter (pyGet d "travelerPricings" (PyVal.list [])) with
  | error e =>
    simp only [hI] at h
    exact Except.noConfusion h
  | ok ps =>
    simp only [hI] at h
    cases hL : travelerPricingLoop ps with
    | error e =>
      simp only [hL] at h
      exact Except.noConfusion h
    | ok u =>
      simp only [hL] at h
      exact (Except.ok.inj h).symm

/-- Witness for C6: the empty flight offer returns the fixed record. -/
theorem claim_flight_extractor_const_witness :
    extract_flight_accessibility_from_amadeus [] =
      .ok [("wheelchair_available", PyVal.bool false),
           ("wheelchair_stowage", PyVal.bool false),
           ("accessible_lavatory", PyVal.bool false),
           ("extra_legroom_available", PyVal.bool false),
           ("special_service_codes", PyVal.none),
           ("companion_required", PyVal.none),
           ("special_meals_available", PyVal.bool false),
           ("notes", PyVal.str "Check with airline for specific accessibility accommodations")] := by
  obtain ⟨r, hr⟩ : ∃ r, extract_flight_accessibility_from_amadeus [] = .ok r :=
    ⟨_, rfl⟩
  have hfix := claim_flight_extractor_const [] r hr
  rw [hfix] at hr
  exact hr

/-- Counterexample for C6: a None travelerPricings value makes the
extractor raise TypeError, so it is not a constant function of its
input. -/
theorem claim_flight_extractor_counterexample :
    extract_flight_accessibility_from_amadeus
      [("travelerPricings", PyVal.none)] = .error PyExn.typeError :=
  rfl

/-- Counterexample for C9: the wheelchair_amenity_id field of
HotelAccessibility defaults to the integer 53, which is neither false
nor None. -/
theorem claim_model_defaults_counterexample :
    ("wheelchair_amenity_id", PyVal.int 53) ∈ hotelAccessibilityFieldDefaults
    ∧ isFalseOrNone (PyVal.int 53) = false := by
  constructor
  · simp [hotelAccessibilityFieldDefaults]
  · rfl

/-- Claim C9 as amended: all three record types can be constructed
with no input, taking the declared defaults, and every field default
is false or None, except wheelchair_amenity_id of HotelAccessibility
whose default is the integer 53. -/
theorem claim_model_defaults_amended :
    ({} : FlightAccessibility) = FlightAccessibility.mk
      false false false false Option.none Option.none false Option.none
    ∧ ({} : HotelAccessibility) = HotelAccessibility.mk
      false false 53 Option.none false false false false Option.none Option.none
    ∧ ({} : AccessibilityRequest) = AccessibilityRequest.mk
      false false false false false false Option.none
    ∧ (flightAccessibilityFieldDefaults.all fun p => isFalseOrNone p.2) = true
    ∧ (accessibilityRequestFieldDefaults.all fun p => isFalseOrNone p.2) = true
    ∧ (hotelAccessibilityFieldDefaults.all fun p =>
        isFalseOrNone p.2 || (p.1 == "wheelchair_amenity_id")) = true
    ∧ dictGet hotelAccessibilityFieldDefaults "wheelchair_amenity_id" =
        some (PyVal.int 53) :=
  ⟨rfl, rfl, rfl, rfl, rfl, rfl, rfl⟩

/-- Claim C10: a facilities entry that is a dict with a description
key contributes the description value to facility_list unchanged, so
the stored list can hold non-strings such as None; stringification
happens only in keyword matching. -/
theorem claim_amadeus_description_passthrough :
    (∀ (m : List (String × PyVal)) (v : PyVal),
      dictGet m "description" = some v →
      amadeusFacilityEntry (PyVal.dict m) = v)
    ∧ extract_amadeus_hotel_accessibility
        [("facilities", PyVal.list [PyVal.dict [("description", PyVal.none)]])] =
      .ok [("wheelchair_accessible", PyVal.bool false),
           ("accessible_room_available", PyVal.bool false),
           ("facility_list", PyVal.list [PyVal.none])] := by
  constructor
  · intro m v hv
    simp [amadeusFacilityEntry, pyGet, hv]
  · rfl

/-- Witness for C10: a description value that is an int is stored
as-is. -/
theorem claim_amadeus_description_passthrough_witness :
    amadeusFacilityEntry (PyVal.dict [("description", PyVal.int 5)]) =
      PyVal.int 5 :=
  claim_amadeus_description_passthrough.1 [("description", PyVal.int 5)]
    (PyVal.int 5) rfl
